import Mathlib

/-!
Shallow embedding of the Webhook Tester repository:
the server-side route handler in src/app/api/webhook-tester/route.ts
(URL validation, SSRF blocklist, timeout-bounded probe, error
classification) and the client component (src/unnamed/part_001:
isValidUrl, testWebhook history handling).

Modelling conventions:
* WHATWG URL parsing (the JS `new URL` constructor) is treated as an
  oracle: a `ParseOutcome` value records whether `new URL(urlString)`
  throws, and otherwise its `protocol` (with trailing colon, as in JS)
  and `hostname`.  Both the handler and `isInternalUrl` parse the same
  string, so they receive the same `ParseOutcome`.
* JS millisecond clocks (`Date.now`, `performance.now`) are modelled as
  natural numbers; `Math.round` on a whole number of milliseconds is the
  identity.
* The JS regular expressions in the sources are anchored alternations of
  string literals, translated to `String.startsWith` checks; the
  alternation `172\.(1[6-9]|2[0-9]|3[0-1])\.` denotes exactly the
  sixteen prefixes 172.16. ... 172.31., listed in `range172Prefixes`.
* The `fetch` call is an oracle `FetchOutcome`: it resolves with a
  status code, or rejects with an `Error` (carrying `name` and
  `message`), or rejects with a non-`Error` value.
-/

namespace WebhookTester

/-- Boolean prefix test on character lists (used to model substring search). -/
def isPrefixOfB : List Char → List Char → Bool
  | [], _ => true
  | _ :: _, [] => false
  | a :: as, b :: bs => a == b && isPrefixOfB as bs

/-- Boolean infix test on character lists. -/
def isInfixOfB (p : List Char) : List Char → Bool
  | [] => isPrefixOfB p []
  | b :: bs => isPrefixOfB p (b :: bs) || isInfixOfB p bs

/-- Models the JS `String.prototype.includes` test used on error messages. -/
def containsSubstr (s sub : String) : Bool :=
  isInfixOfB sub.toList s.toList

/-- ASCII lower-casing of a string, character by character; models the JS
`toLowerCase()` call on hostnames (kernel-reducible, unlike `String.toLower`
which walks byte positions). -/
def strToLower (s : String) : String :=
  String.mk (s.data.map Char.toLower)

/-- Anchored prefix test on strings; models both `hostname.startsWith(...)`
and the anchored regex alternatives of the sources. -/
def strStartsWith (s p : String) : Bool :=
  isPrefixOfB p.data s.data

/-- Outcome of `new URL(urlString)`: either the constructor throws, or it
yields a parsed URL with a `protocol` (including the trailing colon) and a
`hostname`. -/
inductive ParseOutcome where
  | fail
  | ok (protocol : String) (hostname : String)
deriving DecidableEq, Repr

/-- The `blockedHosts` array of `isInternalUrl` in route.ts. -/
def blockedHosts : List String :=
  ["localhost", "127.0.0.1", "0.0.0.0", "::1", "0:0:0:0:0:0:0:1"]

/-- The sixteen prefixes denoted by the regex `^172\.(1[6-9]|2[0-9]|3[0-1])\.`:
each alternative is a two-digit literal 16-31 between the literal dots. -/
def range172Prefixes : List String :=
  ["172.16.", "172.17.", "172.18.", "172.19.", "172.20.", "172.21.",
   "172.22.", "172.23.", "172.24.", "172.25.", "172.26.", "172.27.",
   "172.28.", "172.29.", "172.30.", "172.31."]

/-- The `privateIPPatterns.some(...)` test of `isInternalUrl` in route.ts:
anchored regexes `^10\.`, `^172\.(1[6-9]|2[0-9]|3[0-1])\.`, `^192\.168\.`,
`^169\.254\.`, `^fc00:`, `^fd00:`. -/
def privateIPMatch (h : String) : Bool :=
  strStartsWith h "10." ||
  range172Prefixes.any (fun p => strStartsWith h p) ||
  strStartsWith h "192.168." ||
  strStartsWith h "169.254." ||
  strStartsWith h "fc00:" ||
  strStartsWith h "fd00:"

/-- `isInternalUrl` from route.ts, over the parse oracle: a parse failure is
caught and reported as internal; otherwise the lower-cased hostname is
checked against the exact blocklist, then the private-range patterns. -/
def isInternalUrl (p : ParseOutcome) : Bool :=
  match p with
  | .fail => true
  | .ok _ hostname =>
    let h := strToLower hostname
    if blockedHosts.contains h then true
    else if privateIPMatch h then true
    else false

/-- The `blockedHosts` array of the client `isValidUrl` (src/unnamed/part_001);
note it lacks the expanded IPv6 loopback literal of the server list. -/
def clientBlockedHosts : List String :=
  ["localhost", "127.0.0.1", "0.0.0.0", "::1"]

/-- The client regex `^10\.|^172\.(1[6-9]|2[0-9]|3[0-1])\.|^192\.168\.`
(no link-local, no IPv6 unique-local alternatives). -/
def clientPrivateMatch (h : String) : Bool :=
  strStartsWith h "10." ||
  range172Prefixes.any (fun p => strStartsWith h p) ||
  strStartsWith h "192.168."

/-- The client-side `isValidUrl` from src/unnamed/part_001, over the parse
oracle: parse failure is caught as `false`; the lower-cased hostname must not
equal a client blocklist entry nor start with one followed by a dot, must not
match the client private-range regex, and the protocol must be http or https. -/
def isValidUrl (p : ParseOutcome) : Bool :=
  match p with
  | .fail => false
  | .ok protocol hostname =>
    let h := strToLower hostname
    if clientBlockedHosts.any (fun b => h == b || strStartsWith h (b ++ ".")) then false
    else if clientPrivateMatch h then false
    else protocol == "http:" || protocol == "https:"

/-- Result of the `fetch` oracle inside the handler: the response resolved
with a status code, or the promise rejected with an `Error` (with its `name`
and `message`), or it rejected with a value that is not an `Error` instance. -/
inductive FetchOutcome where
  | ok (status : Nat)
  | err (name : String) (msg : String)
  | nonError
deriving DecidableEq, Repr

/-- Environment of one probe: the two `Date.now()` readings around the fetch
and the fetch oracle. -/
structure ProbeEnv where
  startTime : Nat
  endTime : Nat
  fetch : FetchOutcome
deriving DecidableEq, Repr

/-- JSON body produced by the handler together with the HTTP status of the
handler response; absent JSON fields are `none`. -/
structure TestResponse where
  status : Nat
  success : Option Bool := none
  statusCode : Option Nat := none
  latency : Option Nat := none
  error : Option String := none
  message : Option String := none
deriving DecidableEq, Repr

/-- The inner try/catch of the handler (route.ts lines 119-176): on a
resolved fetch, success with status code and measured latency; on an
`AbortError`, the timeout body; on an error whose message contains
"fetch failed", the network-error body; on any other `Error`, the
message-bearing body; on a non-`Error` throw, the unknown-error body.
All are HTTP 200 (`NextResponse.json` default). -/
def probeResult (env : ProbeEnv) : TestResponse :=
  match env.fetch with
  | .ok code =>
      { status := 200, success := some true, statusCode := some code,
        latency := some (env.endTime - env.startTime),
        message := some ("Webhook responded with " ++ toString code) }
  | .err name msg =>
      if name == "AbortError" then
        { status := 200, success := some false,
          error := some "Request timeout (>10s)" }
      else if containsSubstr msg "fetch failed" then
        { status := 200, success := some false,
          error := some "Network error: Could not reach the URL" }
      else
        { status := 200, success := some false,
          error := some ("Request failed: " ++ msg) }
  | .nonError =>
      { status := 200, success := some false,
        error := some "Unknown error occurred" }

/-- The `url` field of the request body as JS sees it: absent/undefined/null
or another falsy non-string, a truthy non-string, or a string. -/
inductive UrlField where
  | missing
  | nonString
  | str (s : String)
deriving DecidableEq, Repr

/-- Outcome of `await request.json()`: it throws (caught by the outer
try/catch) or yields a body whose `url` field is as recorded. -/
inductive BodyOutcome where
  | throwErr
  | ok (url : UrlField)
deriving DecidableEq, Repr

/-- The guard `!url || typeof url !== "string"` (route.ts line 59): true for
a missing/falsy field, any non-string, and the empty string (falsy in JS). -/
def urlGuardFails : UrlField → Bool
  | .missing => true
  | .nonString => true
  | .str s => s == ""

/-- The POST handler of route.ts, over the body, URL-parse and fetch oracles.
Returns the response together with a flag telling whether the outbound
`fetch` was reached (no rejection path reaches it). -/
def POST (body : BodyOutcome) (parse : ParseOutcome) (env : ProbeEnv) :
    TestResponse × Bool :=
  match body with
  | .throwErr =>
      ({ status := 500, success := some false,
         error := some "Internal server error" }, false)
  | .ok url =>
      if urlGuardFails url then
        ({ status := 400,
           error := some "URL is required and must be a string" }, false)
      else
        match parse with
        | .fail =>
            ({ status := 400, success := some false,
               error := some "Invalid URL format" }, false)
        | .ok protocol _ =>
            if !(["http:", "https:"].contains protocol) then
              ({ status := 400, success := some false,
                 error := some "Only HTTP and HTTPS protocols are allowed" }, false)
            else if isInternalUrl parse then
              ({ status := 403, success := some false,
                 error := some "Access to internal/private URLs is not allowed" }, false)
            else
              (probeResult env, true)

/-- The handler accepts the URL and proceeds to the probe: the parse
succeeded, the protocol is http/https, and `isInternalUrl` is false. -/
def serverAccepts (p : ParseOutcome) : Bool :=
  match p with
  | .fail => false
  | .ok protocol _ =>
      ["http:", "https:"].contains protocol && !(isInternalUrl p)

/-- The `setTimeout(() => controller.abort(), 10000)` deadline of route.ts. -/
def timeoutMs : Nat := 10000

/-- Outcome of the race between the fetch and the abort timer. -/
structure RaceResult where
  aborted : Bool
  outcome : FetchOutcome
deriving DecidableEq, Repr

/-- Timing model of the `AbortController` race: the target either responds at
time `t` (milliseconds after the fetch is issued) or never responds.  The
exchange completes when the target responds strictly before the 10000 ms
timer fires; otherwise the timer callback aborts the in-flight request, which
makes the fetch reject with an `Error` named AbortError. -/
def raceFetch (respondsAt : Option Nat) (targetStatus : Nat) : RaceResult :=
  match respondsAt with
  | some t =>
      if t < timeoutMs then { aborted := false, outcome := .ok targetStatus }
      else { aborted := true,
             outcome := .err "AbortError" "This operation was aborted" }
  | none =>
      { aborted := true,
        outcome := .err "AbortError" "This operation was aborted" }

/-- Timer-relevant events of the probe section of the handler, in program
order: arming the 10 s timer, `clearTimeout`, and returning a response. -/
inductive ProbeAction where
  | setTimer
  | clearTimer
  | respond (r : TestResponse)
deriving DecidableEq, Repr

/-- Event trace of the probe section (route.ts lines 116-176): the timer is
armed, then the try branch clears the timer after the fetch resolves and
responds with the success body, while the catch branch clears the timer on
entry and then responds with the classified error body. -/
def probeTrace (env : ProbeEnv) : List ProbeAction :=
  .setTimer ::
    (match env.fetch with
     | .ok code =>
         [.clearTimer,
          .respond { status := 200, success := some true, statusCode := some code,
                     latency := some (env.endTime - env.startTime),
                     message := some ("Webhook responded with " ++ toString code) }]
     | .err name msg =>
         [.clearTimer,
          .respond
            (if name == "AbortError" then
               { status := 200, success := some false,
                 error := some "Request timeout (>10s)" }
             else if containsSubstr msg "fetch failed" then
               { status := 200, success := some false,
                 error := some "Network error: Could not reach the URL" }
             else
               { status := 200, success := some false,
                 error := some ("Request failed: " ++ msg) })]
     | .nonError =>
         [.clearTimer,
          .respond { status := 200, success := some false,
                     error := some "Unknown error occurred" }])

/-- Number of armed, not yet cleared timers after a trace runs. -/
def pendingTimers (l : List ProbeAction) : Nat :=
  l.foldl
    (fun n a =>
      match a with
      | .setTimer => n + 1
      | .clearTimer => n - 1
      | .respond _ => n)
    0

/-- The `WebhookTest` interface of the client component: one history entry. -/
structure WebhookTest where
  id : String
  url : String
  statusCode : Option Nat
  latency : Option Nat
  timestamp : String
  error : Option String
deriving DecidableEq, Repr

/-- The history update `setTests((prev) => [newTest, ...prev].slice(0, 20))`
performed by `testWebhook` on both its success and its catch path. -/
def appendTest (e : WebhookTest) (prev : List WebhookTest) : List WebhookTest :=
  (e :: prev).take 20

/-- Sequential probes: each probe appends its entry to the history. -/
def runProbes (init : List WebhookTest) (es : List WebhookTest) : List WebhookTest :=
  es.foldl (fun acc e => appendTest e acc) init

/-- JS `x || fallback` on an optional number: `undefined` and `0` are falsy. -/
def jsOrFallbackNat (x : Option Nat) (fallback : Nat) : Nat :=
  match x with
  | some v => if v == 0 then fallback else v
  | none => fallback

/-- JS `x || null` on an optional number: `undefined` and `0` become null. -/
def jsTruthyNat (x : Option Nat) : Option Nat :=
  match x with
  | some v => if v == 0 then none else some v
  | none => none

/-- Construction of the new history entry in `testWebhook` (src/unnamed/
part_001 lines 113-120): `statusCode: data.statusCode || null`,
`latency: data.latency || Math.round(endTime - startTime)` where the two
`performance.now()` readings surround the whole round trip to the handler. -/
def mkWebhookTest (idStr urlStr : String) (data : TestResponse)
    (startTime endTime : Nat) (ts : String) : WebhookTest :=
  { id := idStr, url := urlStr,
    statusCode := jsTruthyNat data.statusCode,
    latency := some (jsOrFallbackNat data.latency (endTime - startTime)),
    timestamp := ts,
    error := data.error }

/-- Hostnames the client validator rejects but the server blocklist does not:
a client blocklist entry extended with a dot-delimited suffix. -/
def prefixTrick (h : String) : Bool :=
  clientBlockedHosts.any (fun b => strStartsWith h (b ++ "."))

/-- Hostnames the server validator rejects but the client validator does not:
the expanded IPv6 loopback literal, the link-local range, and the IPv6
unique-local prefixes. -/
def serverOnlyBlock (h : String) : Bool :=
  h == "0:0:0:0:0:0:0:1" ||
  strStartsWith h "169.254." ||
  strStartsWith h "fc00:" ||
  strStartsWith h "fd00:"

/-- A hostname matching the private-range patterns makes `isInternalUrl`
report an internal URL, whatever the blocklist check says. -/
lemma isInternalUrl_of_private (P H : String)
    (hpriv : privateIPMatch (strToLower H) = true) :
    isInternalUrl (.ok P H) = true := by
  simp [isInternalUrl, hpriv]

/-- Starting with any of the sixteen 172.16.-172.31. prefixes triggers the
private-range match. -/
lemma private_of_mem172 (h p : String) (hmem : p ∈ range172Prefixes)
    (hsw : strStartsWith h p = true) : privateIPMatch h = true := by
  have hany : range172Prefixes.any (fun q => strStartsWith h q) = true :=
    List.any_eq_true.mpr ⟨p, hmem, hsw⟩
  simp [privateIPMatch, hany]

/-- C1 counterexample: the hostname 127.0.0.1.evil extends the blocklist
entry 127.0.0.1 with a dot-delimited suffix, yet the server-side
`isInternalUrl` reports it as not internal and the handler proceeds to the
outbound request, returning the success body instead of the 403 rejection. -/
theorem c1_prefix_trick_counterexample :
    isInternalUrl (.ok "http:" "127.0.0.1.evil") = false ∧
    POST (.ok (.str "http://127.0.0.1.evil/")) (.ok "http:" "127.0.0.1.evil")
        ⟨0, 5, .ok 200⟩ =
      ({ status := 200, success := some true, statusCode := some 200,
         latency := some 5,
         message := some "Webhook responded with 200" }, true) := by
  decide

/-- C1 (amended): for every http/https URL whose lower-cased hostname is
exactly one of the five blocklist entries, the handler rejects with HTTP 403
and the fixed error message, and no outbound request is issued; hostnames
that merely begin with a blocklist entry as a dot-delimited prefix are not
covered by the server-side check. -/
theorem c1_blocked_host_rejected (s P H : String) (env : ProbeEnv)
    (hs : s ≠ "") (hp : (["http:", "https:"].contains P) = true)
    (hb : blockedHosts.contains (strToLower H) = true) :
    POST (.ok (.str s)) (.ok P H) env =
      ({ status := 403, success := some false,
         error := some "Access to internal/private URLs is not allowed" }, false) := by
  have hguard : (s == "") = false := beq_eq_false_iff_ne.mpr hs
  have hpd : P = "http:" ∨ P = "https:" := by simpa using hp
  have hbd : strToLower H ∈ blockedHosts := by simpa using hb
  rcases hpd with h | h <;>
    simp [POST, urlGuardFails, hguard, h, isInternalUrl, hbd]

/-- C1 witness: the blocked hostname localhost is rejected with 403 and no
outbound request. -/
theorem c1_blocked_host_rejected_witness :
    POST (.ok (.str "http://localhost/")) (.ok "http:" "localhost")
        ⟨0, 0, .nonError⟩ =
      ({ status := 403, success := some false,
         error := some "Access to internal/private URLs is not allowed" }, false) :=
  c1_blocked_host_rejected "http://localhost/" "http:" "localhost"
    ⟨0, 0, .nonError⟩ (by decide) (by decide) (by decide)

/-- C3: the server validator flags every hostname in the literal private
classes 10.x, 172.16.x-172.31.x, 192.168.x, 169.254.x, fc00:/fd00: as
internal; the five sample addresses are rejected through the private-range
check (not the blocklist), while 172.15.255.255 and 172.32.0.0.1 fall outside
the private-range patterns and are not rejected at all. -/
theorem c3_private_ranges :
    (∀ P H, strStartsWith (strToLower H) "10." = true →
       isInternalUrl (.ok P H) = true) ∧
    (∀ P H (n : Nat), 16 ≤ n → n ≤ 31 →
       strStartsWith (strToLower H) ("172." ++ toString n ++ ".") = true →
       isInternalUrl (.ok P H) = true) ∧
    (∀ P H, strStartsWith (strToLower H) "192.168." = true →
       isInternalUrl (.ok P H) = true) ∧
    (∀ P H, strStartsWith (strToLower H) "169.254." = true →
       isInternalUrl (.ok P H) = true) ∧
    (∀ P H, strStartsWith (strToLower H) "fc00:" = true →
       isInternalUrl (.ok P H) = true) ∧
    (∀ P H, strStartsWith (strToLower H) "fd00:" = true →
       isInternalUrl (.ok P H) = true) ∧
    (∀ h ∈ (["10.0.0.1", "172.16.0.1", "172.31.255.255", "192.168.1.1",
             "169.254.1.1"] : List String),
       isInternalUrl (.ok "http:" h) = true ∧
       blockedHosts.contains h = false ∧ privateIPMatch h = true) ∧
    privateIPMatch "172.15.255.255" = false ∧
    privateIPMatch "172.32.0.0.1" = false ∧
    isInternalUrl (.ok "http:" "172.15.255.255") = false ∧
    isInternalUrl (.ok "http:" "172.32.0.0.1") = false := by
  refine ⟨?_, ?_, ?_, ?_, ?_, ?_, by decide, by decide, by decide,
    by decide, by decide⟩
  · intro P H hsw
    exact isInternalUrl_of_private P H (by simp [privateIPMatch, hsw])
  · intro P H n h16 h31 hsw
    refine isInternalUrl_of_private P H (private_of_mem172 _ _ ?_ hsw)
    interval_cases n <;> decide
  · intro P H hsw
    exact isInternalUrl_of_private P H (by simp [privateIPMatch, hsw])
  · intro P H hsw
    exact isInternalUrl_of_private P H (by simp [privateIPMatch, hsw])
  · intro P H hsw
    exact isInternalUrl_of_private P H (by simp [privateIPMatch, hsw])
  · intro P H hsw
    exact isInternalUrl_of_private P H (by simp [privateIPMatch, hsw])

/-- C3 witness: 172.25.3.4 lies in the 172.16-172.31 range and is reported
internal. -/
theorem c3_private_ranges_witness :
    isInternalUrl (.ok "http:" "172.25.3.4") = true :=
  c3_private_ranges.2.1 "http:" "172.25.3.4" 25 (by decide) (by decide)
    (by decide)

/-- C4: when the target does not respond strictly before the 10000 ms
deadline, the timer aborts the in-flight request and the handler answers
HTTP 200 with success false and the fixed timeout message, with no statusCode
and no latency field. -/
theorem c4_timeout (respondsAt : Option Nat) (tStatus : Nat) (s P H : String)
    (st et : Nat)
    (hlate : ∀ t, respondsAt = some t → timeoutMs ≤ t)
    (hs : s ≠ "") (hp : (["http:", "https:"].contains P) = true)
    (hint : isInternalUrl (.ok P H) = false) :
    (raceFetch respondsAt tStatus).aborted = true ∧
    POST (.ok (.str s)) (.ok P H)
        ⟨st, et, (raceFetch respondsAt tStatus).outcome⟩ =
      ({ status := 200, success := some false,
         error := some "Request timeout (>10s)" }, true) := by
  have hguard : (s == "") = false := beq_eq_false_iff_ne.mpr hs
  have hrace : raceFetch respondsAt tStatus =
      { aborted := true,
        outcome := .err "AbortError" "This operation was aborted" } := by
    cases respondsAt with
    | none => rfl
    | some t =>
      have ht := hlate t rfl
      simp [raceFetch, Nat.not_lt.mpr ht]
  have hpd : P = "http:" ∨ P = "https:" := by simpa using hp
  rw [hrace]
  refine ⟨rfl, ?_⟩
  rcases hpd with h | h <;> subst h <;>
    simp [POST, urlGuardFails, hguard, hint, probeResult]

/-- C4 witness: a target that never responds is aborted and yields the
timeout body. -/
theorem c4_timeout_witness :
    (raceFetch none 200).aborted = true ∧
    POST (.ok (.str "http://example.com/")) (.ok "http:" "example.com")
        ⟨0, 10000, (raceFetch none 200).outcome⟩ =
      ({ status := 200, success := some false,
         error := some "Request timeout (>10s)" }, true) :=
  c4_timeout none 200 "http://example.com/" "http:" "example.com" 0 10000
    (by intro t h; cases h) (by decide) (by decide) (by decide)

/-- C5: when the target completes the exchange before the deadline, whatever
its status code, the handler answers success true with that status code and
latency equal to the difference of the two clock readings taken just before
the request and just after the response. -/
theorem c5_completed (code st et respT : Nat) (s P H : String)
    (hfast : respT < timeoutMs) (hs : s ≠ "")
    (hp : (["http:", "https:"].contains P) = true)
    (hint : isInternalUrl (.ok P H) = false) :
    (raceFetch (some respT) code).aborted = false ∧
    POST (.ok (.str s)) (.ok P H)
        ⟨st, et, (raceFetch (some respT) code).outcome⟩ =
      ({ status := 200, success := some true, statusCode := some code,
         latency := some (et - st),
         message := some ("Webhook responded with " ++ toString code) }, true) := by
  have hguard : (s == "") = false := beq_eq_false_iff_ne.mpr hs
  have hrace : raceFetch (some respT) code =
      { aborted := false, outcome := .ok code } := by
    simp [raceFetch, hfast]
  have hpd : P = "http:" ∨ P = "https:" := by simpa using hp
  rw [hrace]
  refine ⟨rfl, ?_⟩
  rcases hpd with h | h <;> subst h <;>
    simp [POST, urlGuardFails, hguard, hint, probeResult]

/-- The server private-range patterns are the client ones plus the
link-local and IPv6 unique-local alternatives. -/
lemma privateIPMatch_eq_client (h : String) :
    privateIPMatch h =
      (clientPrivateMatch h ||
        (strStartsWith h "169.254." || strStartsWith h "fc00:" ||
          strStartsWith h "fd00:")) := by
  simp only [privateIPMatch, clientPrivateMatch, Bool.or_assoc]

/-- When no dot-extended blocklist hostname and no expanded IPv6 loopback
literal is involved, the client blocklist test agrees with the server
blocklist membership test. -/
lemma client_block_eq_server_block (h : String)
    (hp : prefixTrick h = false)
    (h6 : (h == "0:0:0:0:0:0:0:1") = false) :
    clientBlockedHosts.any (fun b => h == b || strStartsWith h (b ++ ".")) =
      blockedHosts.contains h := by
  have hp4 := hp
  simp only [prefixTrick, clientBlockedHosts, List.any_cons, List.any_nil,
    Bool.or_false, Bool.or_eq_false_iff] at hp4
  obtain ⟨q1, q2, q3, q4⟩ := hp4
  have q1n : strStartsWith h "localhost." = false := by simpa using q1
  have q2n : strStartsWith h "127.0.0.1." = false := by simpa using q2
  have q3n : strStartsWith h "0.0.0.0." = false := by simpa using q3
  have q4n : strStartsWith h "::1." = false := by simpa using q4
  have h6n : h ≠ "0:0:0:0:0:0:0:1" := by simpa using h6
  simp [clientBlockedHosts, blockedHosts, q1n, q2n, q3n, q4n, h6n]
  cases e1 : (h == "localhost") <;> cases e2 : (h == "127.0.0.1") <;>
    cases e3 : (h == "0.0.0.0") <;> cases e4 : (h == "::1") <;>
      simp_all

/-- The second component of the handler result records whether the URL passed
every check and the outbound request was issued. -/
lemma POST_fetch_eq_serverAccepts (p : ParseOutcome) (env : ProbeEnv)
    (s : String) (hs : s ≠ "") :
    (POST (.ok (.str s)) p env).2 = serverAccepts p := by
  have hguard : (s == "") = false := beq_eq_false_iff_ne.mpr hs
  cases p with
  | fail => simp [POST, urlGuardFails, hguard, serverAccepts]
  | ok P H =>
    simp only [POST, urlGuardFails, hguard, Bool.false_eq_true, if_false,
      serverAccepts]
    split_ifs with h1 h2 <;> simp_all
    tauto

/-- C2 counterexample: the two validators disagree in both directions: the
client rejects the dot-extended blocklist hostname 127.0.0.1.evil while the
server proceeds to the outbound request, and the client accepts the
link-local address 169.254.1.1 while the server rejects it. -/
theorem c2_validators_differ_counterexample :
    isValidUrl (.ok "http:" "127.0.0.1.evil") = false ∧
    serverAccepts (.ok "http:" "127.0.0.1.evil") = true ∧
    (POST (.ok (.str "http://127.0.0.1.evil/")) (.ok "http:" "127.0.0.1.evil")
        ⟨0, 0, .nonError⟩).2 = true ∧
    isValidUrl (.ok "http:" "169.254.1.1") = true ∧
    serverAccepts (.ok "http:" "169.254.1.1") = false ∧
    (POST (.ok (.str "http://169.254.1.1/")) (.ok "http:" "169.254.1.1")
        ⟨0, 0, .nonError⟩).2 = false := by
  decide

/-- C2 (amended): outside the two divergence classes — lower-cased hostnames
extending a client blocklist entry with a dot-delimited suffix (rejected only
by the client) and hostnames equal to the expanded IPv6 loopback literal or
matching the link-local / IPv6 unique-local prefixes (rejected only by the
server) — the client validator accepts a parsed URL exactly when the
server-side handler proceeds to issue the probe; on parse failure both
reject. -/
theorem c2_validators_agree (P H : String)
    (hp : prefixTrick (strToLower H) = false)
    (hs : serverOnlyBlock (strToLower H) = false) :
    isValidUrl (.ok P H) = serverAccepts (.ok P H) ∧
    (∀ (s : String) (env : ProbeEnv), s ≠ "" →
       (isValidUrl (.ok P H) = true ↔
         (POST (.ok (.str s)) (.ok P H) env).2 = true)) ∧
    isValidUrl .fail = serverAccepts .fail := by
  have hs4 := hs
  simp only [serverOnlyBlock, Bool.or_eq_false_iff] at hs4
  obtain ⟨⟨⟨h6, h169⟩, hfc⟩, hfd⟩ := hs4
  have h6b : (strToLower H == "0:0:0:0:0:0:0:1") = false := by
    simpa using h6
  have hpm : privateIPMatch (strToLower H) = clientPrivateMatch (strToLower H) := by
    rw [privateIPMatch_eq_client]
    simp [h169, hfc, hfd]
  have key : isValidUrl (.ok P H) = serverAccepts (.ok P H) := by
    simp only [isValidUrl, serverAccepts, isInternalUrl]
    rw [client_block_eq_server_block _ hp h6b, hpm]
    rcases Bool.eq_false_or_eq_true (blockedHosts.contains (strToLower H)) with
        hb | hb <;>
      rcases Bool.eq_false_or_eq_true (clientPrivateMatch (strToLower H)) with
          hc | hc <;>
        simp_all [Bool.and_comm, Bool.beq_eq_decide_eq]
  refine ⟨key, ?_, rfl⟩
  intro s env hsne
  rw [POST_fetch_eq_serverAccepts _ _ _ hsne, key]

/-- C2 witness: for the public hostname example.com both layers accept, and
the handler proceeds to the probe. -/
theorem c2_validators_agree_witness :
    isValidUrl (.ok "http:" "example.com") =
      serverAccepts (.ok "http:" "example.com") ∧
    (isValidUrl (.ok "http:" "example.com") = true ↔
      (POST (.ok (.str "http://example.com/")) (.ok "http:" "example.com")
          ⟨0, 0, .nonError⟩).2 = true) :=
  ⟨(c2_validators_agree "http:" "example.com" (by decide) (by decide)).1,
   (c2_validators_agree "http:" "example.com" (by decide) (by decide)).2.1
     "http://example.com/" ⟨0, 0, .nonError⟩ (by decide)⟩

/-- C6 counterexample: the empty string is a present, string-valued url field
that is malformed (the URL constructor throws on it), so the claimed check
order assigns it the Invalid URL format rejection; the handler instead trips
the first guard, because the empty string is falsy in JS, and answers with
the missing-URL message. -/
theorem c6_empty_string_counterexample :
    POST (.ok (.str "")) .fail ⟨0, 0, .nonError⟩ =
      ({ status := 400,
         error := some "URL is required and must be a string" }, false) ∧
    ({ status := 400,
       error := some "URL is required and must be a string" } : TestResponse) ≠
      { status := 400, success := some false,
        error := some "Invalid URL format" } := by
  decide

/-- C6 (amended): every request with a missing, non-string, or empty url is
rejected 400 with the required-URL message (the empty string is falsy in JS
and trips the first guard); a non-empty malformed url is rejected 400 with
the format message; a scheme other than http/https is rejected 400 with the
protocol message regardless of the hostname; an internal host with a good
scheme is rejected 403 with the fixed message; no rejection path issues an
outbound request, and the checks apply in that order. -/
theorem c6_rejection_paths :
    (∀ parse env,
       POST (.ok .missing) parse env =
         ({ status := 400,
            error := some "URL is required and must be a string" }, false) ∧
       POST (.ok .nonString) parse env =
         ({ status := 400,
            error := some "URL is required and must be a string" }, false) ∧
       POST (.ok (.str "")) parse env =
         ({ status := 400,
            error := some "URL is required and must be a string" }, false)) ∧
    (∀ s env, s ≠ "" →
       POST (.ok (.str s)) .fail env =
         ({ status := 400, success := some false,
            error := some "Invalid URL format" }, false)) ∧
    (∀ s P H env, s ≠ "" → (["http:", "https:"].contains P) = false →
       POST (.ok (.str s)) (.ok P H) env =
         ({ status := 400, success := some false,
            error := some "Only HTTP and HTTPS protocols are allowed" }, false)) ∧
    (∀ s P H env, s ≠ "" → (["http:", "https:"].contains P) = true →
       isInternalUrl (.ok P H) = true →
       POST (.ok (.str s)) (.ok P H) env =
         ({ status := 403, success := some false,
            error := some "Access to internal/private URLs is not allowed" },
          false)) := by
  refine ⟨?_, ?_, ?_, ?_⟩
  · intro parse env
    refine ⟨?_, ?_, ?_⟩ <;> simp [POST, urlGuardFails]
  · intro s env hs
    have hguard : (s == "") = false := beq_eq_false_iff_ne.mpr hs
    simp [POST, urlGuardFails, hguard]
  · intro s P H env hs hp
    have hguard : (s == "") = false := beq_eq_false_iff_ne.mpr hs
    have hpd : ¬(P = "http:" ∨ P = "https:") := by simpa using hp
    push_neg at hpd
    simp [POST, urlGuardFails, hguard, hpd.1, hpd.2]
  · intro s P H env hs hp hint
    have hguard : (s == "") = false := beq_eq_false_iff_ne.mpr hs
    have hpd : P = "http:" ∨ P = "https:" := by simpa using hp
    rcases hpd with h | h <;> subst h <;>
      simp [POST, urlGuardFails, hguard, hint]

/-- C6 witness: each rejection category at a concrete input. -/
theorem c6_rejection_paths_witness :
    POST (.ok .missing) .fail ⟨0, 0, .nonError⟩ =
      ({ status := 400,
         error := some "URL is required and must be a string" }, false) ∧
    POST (.ok (.str "not a url")) .fail ⟨0, 0, .nonError⟩ =
      ({ status := 400, success := some false,
         error := some "Invalid URL format" }, false) ∧
    POST (.ok (.str "ftp://example.com/")) (.ok "ftp:" "example.com")
        ⟨0, 0, .nonError⟩ =
      ({ status := 400, success := some false,
         error := some "Only HTTP and HTTPS protocols are allowed" }, false) ∧
    POST (.ok (.str "http://192.168.1.1/")) (.ok "http:" "192.168.1.1")
        ⟨0, 0, .nonError⟩ =
      ({ status := 403, success := some false,
         error := some "Access to internal/private URLs is not allowed" },
       false) :=
  ⟨(c6_rejection_paths.1 .fail ⟨0, 0, .nonError⟩).1,
   c6_rejection_paths.2.1 "not a url" ⟨0, 0, .nonError⟩ (by decide),
   c6_rejection_paths.2.2.1 "ftp://example.com/" "ftp:" "example.com"
     ⟨0, 0, .nonError⟩ (by decide) (by decide),
   c6_rejection_paths.2.2.2 "http://192.168.1.1/" "http:" "192.168.1.1"
     ⟨0, 0, .nonError⟩ (by decide) (by decide) (by decide)⟩

/-- Taking after appending a truncation-to-n equals taking after the plain
append. -/
lemma take_append_take {α : Type} (n : Nat) (l m : List α) :
    (l ++ m.take n).take n = (l ++ m).take n := by
  rw [List.take_append_eq_append_take, List.take_append_eq_append_take,
    List.take_take, Nat.min_eq_left (Nat.sub_le n l.length)]

/-- Folding `appendTest` over a probe sequence keeps the 20 most recent
entries, newest first, whenever the starting history is within the cap. -/
lemma runProbes_eq_take (es init : List WebhookTest) (h : init.length ≤ 20) :
    runProbes init es = (es.reverse ++ init).take 20 := by
  induction es generalizing init with
  | nil => simpa [runProbes] using (List.take_of_length_le h).symm
  | cons e es ih =>
    have hstep : runProbes init (e :: es) = runProbes (appendTest e init) es :=
      rfl
    have hlen : (appendTest e init).length ≤ 20 := by
      simp [appendTest]
    rw [hstep, ih _ hlen]
    simp only [appendTest]
    rw [take_append_take]
    simp [List.append_assoc]

/-- C7: each probe appends its entry at the head and truncates the history to
20 entries, dropping the oldest ones; 25 sequential probes from an empty
history leave exactly the 20 most recent entries, newest first. -/
theorem c7_history_capped :
    (∀ (e : WebhookTest) (prev : List WebhookTest),
       (appendTest e prev).length ≤ 20 ∧
       (appendTest e prev).head? = some e ∧
       appendTest e prev = e :: prev.take 19) ∧
    (∀ es : List WebhookTest, es.length = 25 →
       runProbes [] es = es.reverse.take 20 ∧
       (runProbes [] es).length = 20) := by
  constructor
  · intro e prev
    refine ⟨?_, rfl, rfl⟩
    simp [appendTest]
  · intro es hlen
    have h := runProbes_eq_take es [] (by simp)
    refine ⟨by simpa using h, ?_⟩
    rw [h]
    simp [hlen]

/-- C7 witness: 25 identical probes leave a history of exactly 20 entries. -/
theorem c7_history_capped_witness :
    runProbes []
        (List.replicate 25
          { id := "1", url := "u", statusCode := none, latency := none,
            timestamp := "t", error := none }) =
      (List.replicate 25
        ({ id := "1", url := "u", statusCode := none, latency := none,
           timestamp := "t", error := none } : WebhookTest)).reverse.take 20 :=
  (c7_history_capped.2
    (List.replicate 25
      { id := "1", url := "u", statusCode := none, latency := none,
        timestamp := "t", error := none }) (by simp)).1

/-- C8: on every fetch outcome the probe section arms exactly one timer and
clears it before responding, and no pending timer remains afterwards; the
emitted response is exactly the classified probe result. -/
theorem c8_timer_cleared (env : ProbeEnv) :
    probeTrace env = [.setTimer, .clearTimer, .respond (probeResult env)] ∧
    pendingTimers (probeTrace env) = 0 := by
  cases hf : env.fetch <;> simp [probeTrace, probeResult, pendingTimers, hf]

/-- C9 counterexample: the server reported a latency of 0 ms, yet the client
entry records the 42 ms wall-clock fallback, because 0 is falsy in JS. -/
theorem c9_latency_fallback_counterexample :
    mkWebhookTest "1" "http://example.com/"
        { status := 200, success := some true, statusCode := some 200,
          latency := some 0, message := some "Webhook responded with 200" }
        100 142 "ts" =
      { id := "1", url := "http://example.com/", statusCode := some 200,
        latency := some 42, timestamp := "ts", error := none } ∧
    (some 42 : Option Nat) ≠ some 0 := by
  decide

/-- C9 (amended): the client records the server-reported latency whenever the
server reported a nonzero one, and falls back to its own wall-clock
measurement when the server reported none or reported zero. -/
theorem c9_latency_recorded (idStr urlStr ts : String) (data : TestResponse)
    (st et : Nat) :
    (∀ v, data.latency = some v → v ≠ 0 →
       (mkWebhookTest idStr urlStr data st et ts).latency = some v) ∧
    (data.latency = none →
       (mkWebhookTest idStr urlStr data st et ts).latency = some (et - st)) ∧
    (data.latency = some 0 →
       (mkWebhookTest idStr urlStr data st et ts).latency = some (et - st)) := by
  refine ⟨?_, ?_, ?_⟩
  · intro v hv hv0
    simp [mkWebhookTest, jsOrFallbackNat, hv, hv0]
  · intro hv
    simp [mkWebhookTest, jsOrFallbackNat, hv]
  · intro hv
    simp [mkWebhookTest, jsOrFallbackNat, hv]

/-- C9 witness: a reported 37 ms latency is recorded as is. -/
theorem c9_latency_recorded_witness :
    (mkWebhookTest "1" "u" { status := 200, latency := some 37 } 0 100
        "ts").latency = some 37 :=
  (c9_latency_recorded "1" "u" "ts" { status := 200, latency := some 37 }
    0 100).1 37 rfl (by decide)

/-- C10: a non-Error throw from the fetch yields HTTP 200 with the
unknown-error body (not the 500 fallback), and the handler returns HTTP 500
exactly when the outer try block failed before the fetch section, namely when
reading the request body threw. -/
theorem c10_nonerror_not_500 :
    (∀ (s P H : String) (st et : Nat), s ≠ "" →
       (["http:", "https:"].contains P) = true →
       isInternalUrl (.ok P H) = false →
       POST (.ok (.str s)) (.ok P H) ⟨st, et, .nonError⟩ =
         ({ status := 200, success := some false,
            error := some "Unknown error occurred" }, true)) ∧
    (∀ (body : BodyOutcome) (parse : ParseOutcome) (env : ProbeEnv),
       (POST body parse env).1.status = 500 ↔ body = .throwErr) := by
  constructor
  · intro s P H st et hs hp hint
    have hguard : (s == "") = false := beq_eq_false_iff_ne.mpr hs
    have hpd : P = "http:" ∨ P = "https:" := by simpa using hp
    rcases hpd with h | h <;> subst h <;>
      simp [POST, urlGuardFails, hguard, hint, probeResult]
  · intro body parse env
    cases body with
    | throwErr => simp [POST]
    | ok url =>
      have hne : (POST (.ok url) parse env).1.status ≠ 500 := by
        cases hg : urlGuardFails url with
        | true => simp [POST, hg]
        | false =>
          cases parse with
          | fail => simp [POST, hg]
          | ok P H =>
            simp only [POST, hg, Bool.false_eq_true, if_false]
            split_ifs <;> try simp
            cases henv : env.fetch with
            | ok code => simp [probeResult, henv]
            | nonError => simp [probeResult, henv]
            | err name msg =>
              simp only [probeResult, henv]
              split_ifs <;> simp
      exact iff_of_false hne (by simp)

/-- C10 witness: a non-Error throw on a valid public URL yields the 200
unknown-error body. -/
theorem c10_nonerror_not_500_witness :
    POST (.ok (.str "http://example.com/")) (.ok "http:" "example.com")
        ⟨0, 0, .nonError⟩ =
      ({ status := 200, success := some false,
         error := some "Unknown error occurred" }, true) :=
  c10_nonerror_not_500.1 "http://example.com/" "http:" "example.com" 0 0
    (by decide) (by decide) (by decide)

/-- C5 witness: a 404 answered after 30 ms yields success true with status
code 404 and the measured latency. -/
theorem c5_completed_witness :
    (raceFetch (some 30) 404).aborted = false ∧
    POST (.ok (.str "http://example.com/")) (.ok "http:" "example.com")
        ⟨1000, 1030, (raceFetch (some 30) 404).outcome⟩ =
      ({ status := 200, success := some true, statusCode := some 404,
         latency := some 30,
         message := some "Webhook responded with 404" }, true) :=
  c5_completed 404 1000 1030 30 "http://example.com/" "http:" "example.com"
    (by decide) (by decide) (by decide) (by decide)

end WebhookTester
